import Mathlib

/-!
Verification development for the SimpLLM routing core.

The definitions below are a shallow embedding of the TypeScript sources:
the model catalog and routing tables (`models.ts`), the feedback recorder
(`feedback.ts`), and the router / policy / session-accounting logic of the
chat handler (`extension.ts`).  External effects (the VS Code configuration
store, the language-model backends, timestamps, streamed responses) are
passed in as explicit parameters, so every function here is a pure function
of its inputs, exactly mirroring the decisions the source code makes.
-/

namespace SimpLLM

/-- Ordinal credit tiers, `free < cheap < standard < premium` (models.ts). -/
inductive CreditTier where
  | free
  | cheap
  | standard
  | premium
deriving DecidableEq, Repr

/-- Capability scores of a catalog entry (models.ts `capabilities`). -/
structure Capabilities where
  codeGeneration : Nat
  reasoning : Nat
  speed : Nat
  contextWindow : Nat
deriving DecidableEq, Repr

/-- An immutable catalog entry (models.ts `ModelDefinition`).
Credit multipliers are rationals since the cheap tier costs 0.33x. -/
structure ModelDefinition where
  id : String
  family : String
  name : String
  creditMultiplier : Rat
  creditTier : CreditTier
  isPreview : Bool
  capabilities : Capabilities
  bestFor : List String
deriving DecidableEq, Repr

instance : Inhabited ModelDefinition :=
  ⟨{ id := "", family := "", name := "", creditMultiplier := 0,
     creditTier := CreditTier.free, isPreview := false,
     capabilities := ⟨0, 0, 0, 0⟩, bestFor := [] }⟩

/-- Catalog entry gpt-4.1 (models.ts). -/
def modelGpt41 : ModelDefinition :=
  { id := "gpt-4.1", family := "gpt-4.1", name := "GPT-4.1",
    creditMultiplier := 0, creditTier := CreditTier.free, isPreview := false,
    capabilities := ⟨8, 7, 7, 128⟩,
    bestFor := ["general", "debugging", "functions"] }

/-- Catalog entry gpt-4o, the zero-cost default model (models.ts). -/
def modelGpt4o : ModelDefinition :=
  { id := "gpt-4o", family := "gpt-4o", name := "GPT-4o",
    creditMultiplier := 0, creditTier := CreditTier.free, isPreview := false,
    capabilities := ⟨8, 8, 8, 128⟩,
    bestFor := ["general", "multimodal", "debugging", "documentation"] }

/-- Catalog entry gpt-5-mini (models.ts). -/
def modelGpt5Mini : ModelDefinition :=
  { id := "gpt-5-mini", family := "gpt-5-mini", name := "GPT-5 Mini",
    creditMultiplier := 0, creditTier := CreditTier.free, isPreview := false,
    capabilities := ⟨7, 6, 9, 32⟩,
    bestFor := ["simple-tasks", "quick-questions", "explanations"] }

/-- Catalog entry claude-haiku-4.5 (models.ts). -/
def modelClaudeHaiku45 : ModelDefinition :=
  { id := "claude-haiku-4.5", family := "claude-3.5-haiku", name := "Claude Haiku 4.5",
    creditMultiplier := 0.33, creditTier := CreditTier.cheap, isPreview := false,
    capabilities := ⟨7, 6, 9, 32⟩,
    bestFor := ["quick-edits", "comments", "simple-refactoring"] }

/-- Catalog entry gemini-3-flash (models.ts). -/
def modelGemini3Flash : ModelDefinition :=
  { id := "gemini-3-flash", family := "gemini-flash", name := "Gemini 3 Flash",
    creditMultiplier := 0.33, creditTier := CreditTier.cheap, isPreview := true,
    capabilities := ⟨7, 6, 10, 128⟩,
    bestFor := ["quick-tasks", "formatting"] }

/-- Catalog entry gpt-5.1-codex-mini (models.ts). -/
def modelGpt51CodexMini : ModelDefinition :=
  { id := "gpt-5.1-codex-mini", family := "gpt-5.1-codex-mini", name := "GPT-5.1-Codex-Mini",
    creditMultiplier := 0.33, creditTier := CreditTier.cheap, isPreview := true,
    capabilities := ⟨8, 5, 10, 16⟩,
    bestFor := ["autocomplete", "inline-suggestions"] }

/-- Catalog entry claude-sonnet-4 (models.ts). -/
def modelClaudeSonnet4 : ModelDefinition :=
  { id := "claude-sonnet-4", family := "claude-sonnet-4", name := "Claude Sonnet 4",
    creditMultiplier := 1, creditTier := CreditTier.standard, isPreview := false,
    capabilities := ⟨9, 8, 6, 200⟩,
    bestFor := ["code-quality", "design-patterns", "refactoring"] }

/-- Catalog entry claude-sonnet-4.5 (models.ts). -/
def modelClaudeSonnet45 : ModelDefinition :=
  { id := "claude-sonnet-4.5", family := "claude-3.5-sonnet", name := "Claude Sonnet 4.5",
    creditMultiplier := 1, creditTier := CreditTier.standard, isPreview := false,
    capabilities := ⟨9, 9, 6, 200⟩,
    bestFor := ["tests", "complex-algorithms", "code-review"] }

/-- Catalog entry gemini-2.5-pro (models.ts). -/
def modelGemini25Pro : ModelDefinition :=
  { id := "gemini-2.5-pro", family := "gemini-2.5-pro", name := "Gemini 2.5 Pro",
    creditMultiplier := 1, creditTier := CreditTier.standard, isPreview := false,
    capabilities := ⟨8, 8, 5, 1000⟩,
    bestFor := ["long-context", "codebase-analysis", "multi-file"] }

/-- Catalog entry gemini-3-pro (models.ts). -/
def modelGemini3Pro : ModelDefinition :=
  { id := "gemini-3-pro", family := "gemini-3-pro", name := "Gemini 3 Pro",
    creditMultiplier := 1, creditTier := CreditTier.standard, isPreview := true,
    capabilities := ⟨8, 8, 6, 128⟩,
    bestFor := ["modern-frameworks", "multimodal"] }

/-- Catalog entry gpt-5 (models.ts). -/
def modelGpt5 : ModelDefinition :=
  { id := "gpt-5", family := "gpt-5", name := "GPT-5",
    creditMultiplier := 1, creditTier := CreditTier.standard, isPreview := false,
    capabilities := ⟨9, 9, 6, 128⟩,
    bestFor := ["complex-reasoning", "system-design"] }

/-- Catalog entry gpt-5-codex (models.ts). -/
def modelGpt5Codex : ModelDefinition :=
  { id := "gpt-5-codex", family := "gpt-5-codex", name := "GPT-5-Codex",
    creditMultiplier := 1, creditTier := CreditTier.standard, isPreview := true,
    capabilities := ⟨9, 8, 7, 64⟩,
    bestFor := ["code-generation", "completions"] }

/-- Catalog entry gpt-5.1 (models.ts). -/
def modelGpt51 : ModelDefinition :=
  { id := "gpt-5.1", family := "gpt-5.1", name := "GPT-5.1",
    creditMultiplier := 1, creditTier := CreditTier.standard, isPreview := false,
    capabilities := ⟨9, 9, 6, 128⟩,
    bestFor := ["complex-tasks", "debugging"] }

/-- Catalog entry gpt-5.1-codex (models.ts). -/
def modelGpt51Codex : ModelDefinition :=
  { id := "gpt-5.1-codex", family := "gpt-5.1-codex", name := "GPT-5.1-Codex",
    creditMultiplier := 1, creditTier := CreditTier.standard, isPreview := false,
    capabilities := ⟨9, 8, 7, 64⟩,
    bestFor := ["code-generation", "refactoring"] }

/-- Catalog entry gpt-5.1-codex-max (models.ts). -/
def modelGpt51CodexMax : ModelDefinition :=
  { id := "gpt-5.1-codex-max", family := "gpt-5.1-codex-max", name := "GPT-5.1-Codex-Max",
    creditMultiplier := 1, creditTier := CreditTier.standard, isPreview := false,
    capabilities := ⟨10, 9, 5, 128⟩,
    bestFor := ["complex-code", "large-refactoring"] }

/-- Catalog entry gpt-5.2 (models.ts). -/
def modelGpt52 : ModelDefinition :=
  { id := "gpt-5.2", family := "gpt-5.2", name := "GPT-5.2",
    creditMultiplier := 1, creditTier := CreditTier.standard, isPreview := false,
    capabilities := ⟨9, 9, 6, 128⟩,
    bestFor := ["latest-features", "complex-reasoning"] }

/-- Catalog entry gpt-5.2-codex (models.ts). -/
def modelGpt52Codex : ModelDefinition :=
  { id := "gpt-5.2-codex", family := "gpt-5.2-codex", name := "GPT-5.2-Codex",
    creditMultiplier := 1, creditTier := CreditTier.standard, isPreview := false,
    capabilities := ⟨10, 9, 6, 128⟩,
    bestFor := ["code-generation", "latest-patterns"] }

/-- Catalog entry claude-opus-4.5, the only premium (3x) model (models.ts). -/
def modelClaudeOpus45 : ModelDefinition :=
  { id := "claude-opus-4.5", family := "claude-opus", name := "Claude Opus 4.5",
    creditMultiplier := 3, creditTier := CreditTier.premium, isPreview := false,
    capabilities := ⟨10, 10, 4, 200⟩,
    bestFor := ["architecture", "security-audit", "critical-systems", "legacy-modernization"] }

/-- The full model catalog, in declaration order (models.ts `MODELS`). -/
def MODELS : List ModelDefinition :=
  [modelGpt41, modelGpt4o, modelGpt5Mini,
   modelClaudeHaiku45, modelGemini3Flash, modelGpt51CodexMini,
   modelClaudeSonnet4, modelClaudeSonnet45, modelGemini25Pro, modelGemini3Pro,
   modelGpt5, modelGpt5Codex, modelGpt51, modelGpt51Codex, modelGpt51CodexMax,
   modelGpt52, modelGpt52Codex,
   modelClaudeOpus45]

/-- Catalog lookup by id (models.ts `getModel`). -/
def getModel (id : String) : Option ModelDefinition :=
  MODELS.find? (fun m => m.id = id)

/-- The 13 task-type labels (models.ts `TaskType`). -/
inductive TaskType where
  | autocomplete
  | simple
  | function
  | algorithm
  | test
  | debug
  | refactor
  | architecture
  | security
  | documentation
  | conversion
  | review
  | longContext
deriving DecidableEq, Repr

/-- The string label of a task type, as it appears in the TypeScript union. -/
def taskTypeName : TaskType → String
  | TaskType.autocomplete => "autocomplete"
  | TaskType.simple => "simple"
  | TaskType.function => "function"
  | TaskType.algorithm => "algorithm"
  | TaskType.test => "test"
  | TaskType.debug => "debug"
  | TaskType.refactor => "refactor"
  | TaskType.architecture => "architecture"
  | TaskType.security => "security"
  | TaskType.documentation => "documentation"
  | TaskType.conversion => "conversion"
  | TaskType.review => "review"
  | TaskType.longContext => "long-context"

/-- All valid task types, in declaration order (models.ts `TASK_TYPES_LIST`). -/
def TASK_TYPES_LIST : List TaskType :=
  [TaskType.autocomplete, TaskType.simple, TaskType.function, TaskType.algorithm,
   TaskType.test, TaskType.debug, TaskType.refactor, TaskType.architecture,
   TaskType.security, TaskType.documentation, TaskType.conversion, TaskType.review,
   TaskType.longContext]

/-- Default task-to-model routing (models.ts `DEFAULT_TASK_ROUTING`). -/
def DEFAULT_TASK_ROUTING : TaskType → String
  | TaskType.autocomplete => "gpt-4o"
  | TaskType.simple => "gpt-4o"
  | TaskType.function => "gpt-4o"
  | TaskType.algorithm => "claude-sonnet-4.5"
  | TaskType.test => "claude-sonnet-4.5"
  | TaskType.debug => "gpt-4o"
  | TaskType.refactor => "claude-sonnet-4"
  | TaskType.architecture => "claude-opus-4.5"
  | TaskType.security => "claude-opus-4.5"
  | TaskType.documentation => "gpt-4o"
  | TaskType.conversion => "gpt-4o"
  | TaskType.review => "claude-sonnet-4.5"
  | TaskType.longContext => "gemini-2.5-pro"

/-- The readable slice of the "simpllm" configuration store.  The source
reads these keys through `vscode.workspace.getConfiguration('simpllm')`
with the defaults shown in extension.ts; here a configuration snapshot is
passed explicitly to each function that reads it. -/
structure Config where
  enabled : Bool
  classifierModel : String
  blockedModels : List String
  maxCreditTier : CreditTier
  taskRouting : TaskType → Option String
  monthlyBudget : Rat
  collectFeedback : Bool
  showModelInfo : Bool

/-- The default configuration values used at each read site in the source. -/
def defaultConfig : Config :=
  { enabled := true, classifierModel := "gpt-4o", blockedModels := [],
    maxCreditTier := CreditTier.premium, taskRouting := fun _ => none,
    monthlyBudget := 300, collectFeedback := true, showModelInfo := true }

/-- The fixed tier order used by the policy check (extension.ts `tierOrder`). -/
def tierOrder : List CreditTier :=
  [CreditTier.free, CreditTier.cheap, CreditTier.standard, CreditTier.premium]

/-- Policy check against the admin configuration (extension.ts `isModelAllowed`). -/
def isModelAllowed (cfg : Config) (modelDef : ModelDefinition) : Bool :=
  if cfg.blockedModels.contains modelDef.id then false
  else decide (tierOrder.indexOf modelDef.creditTier ≤ tierOrder.indexOf cfg.maxCreditTier)

/-- Model resolution for a task type (extension.ts `getModelForTask`):
admin routing override first, then the default routing table, each gated by
catalog existence and the policy check, and finally the free model gpt-4o. -/
def getModelForTask (cfg : Config) (taskType : TaskType) : ModelDefinition :=
  let adminChoice : Option ModelDefinition :=
    match cfg.taskRouting taskType with
    | some rid =>
      match getModel rid with
      | some m => if isModelAllowed cfg m then some m else none
      | none => none
    | none => none
  match adminChoice with
  | some m => m
  | none =>
    match getModel (DEFAULT_TASK_ROUTING taskType) with
    | some m => if isModelAllowed cfg m then m else (getModel "gpt-4o").get!
    | none => (getModel "gpt-4o").get!

/-- Character-wise lowercasing, modelling `String.prototype.toLowerCase` on
the alphabets the sources use. -/
def toLowerString (s : String) : String :=
  String.mk (s.data.map Char.toLower)

/-- Whether the first list of characters occurs at the very start of the second. -/
def matchHere : List Char → List Char → Bool
  | [], _ => true
  | _ :: _, [] => false
  | a :: as, b :: bs => a == b && matchHere as bs

/-- Whether the first list of characters occurs anywhere inside the second.
This models the JavaScript regex alternations of plain literals used by the
keyword classifier, and `String.includes`. -/
def occursIn (needle : List Char) : List Char → Bool
  | [] => needle.isEmpty
  | c :: cs => matchHere needle (c :: cs) || occursIn needle cs

/-- Whether the (already lowercased) prompt contains any of the given keywords. -/
def matchesAny (p : String) (keys : List String) : Bool :=
  keys.any (fun k => occursIn k.toList p.toList)

/-- Keyword-based fallback classifier (extension.ts `fallbackClassify`).
Each regex in the source is an alternation of plain literals tested against
the lowercased prompt, i.e. a list of substring checks. -/
def fallbackClassify (prompt : String) : TaskType :=
  let p := toLowerString prompt
  if matchesAny p ["test", "spec", "jest", "pytest", "unit", "mock"] then TaskType.test
  else if matchesAny p ["debug", "hata", "error", "bug", "fix", "crash"] then TaskType.debug
  else if matchesAny p ["security", "güvenlik", "vulnerability", "xss", "sql injection"] then TaskType.security
  else if matchesAny p ["architecture", "mimari", "design", "microservice", "scale"] then TaskType.architecture
  else if matchesAny p ["refactor", "yeniden yaz", "rewrite", "clean", "solid"] then TaskType.refactor
  else if matchesAny p ["algorithm", "algoritma", "sort", "search", "recursive"] then TaskType.algorithm
  else if matchesAny p ["review", "incele", "check", "best practice"] then TaskType.review
  else if matchesAny p ["document", "readme", "jsdoc", "açıkla", "explain"] then TaskType.documentation
  else if matchesAny p ["convert", "dönüştür", "migrate", "transform"] then TaskType.conversion
  else if matchesAny p ["fonksiyon", "function", "method", "class", "write", "yaz"] then TaskType.function
  else if matchesAny p ["basit", "simple", "import", "typo", "renk"] then TaskType.simple
  else if matchesAny p ["tamamla", "complete", "finish"] then TaskType.autocomplete
  else TaskType.function

/-- The fallback classifier's rule table as the specification describes it:
an ordered list of keyword rules, first match wins.  This is the claim-side
rendering of the fixed priority order, used to compare against the chain of
conditionals in `fallbackClassify`. -/
def FALLBACK_RULES : List (List String × TaskType) :=
  [(["test", "spec", "jest", "pytest", "unit", "mock"], TaskType.test),
   (["debug", "hata", "error", "bug", "fix", "crash"], TaskType.debug),
   (["security", "güvenlik", "vulnerability", "xss", "sql injection"], TaskType.security),
   (["architecture", "mimari", "design", "microservice", "scale"], TaskType.architecture),
   (["refactor", "yeniden yaz", "rewrite", "clean", "solid"], TaskType.refactor),
   (["algorithm", "algoritma", "sort", "search", "recursive"], TaskType.algorithm),
   (["review", "incele", "check", "best practice"], TaskType.review),
   (["document", "readme", "jsdoc", "açıkla", "explain"], TaskType.documentation),
   (["convert", "dönüştür", "migrate", "transform"], TaskType.conversion),
   (["fonksiyon", "function", "method", "class", "write", "yaz"], TaskType.function),
   (["basit", "simple", "import", "typo", "renk"], TaskType.simple),
   (["tamamla", "complete", "finish"], TaskType.autocomplete)]

/-- First-match-wins reading of the rule table, defaulting to `function`;
written from the specification's wording of the fallback classifier. -/
def fallbackClassifySpec (prompt : String) : TaskType :=
  match FALLBACK_RULES.find? (fun r => matchesAny (toLowerString prompt) r.1) with
  | some r => r.2
  | none => TaskType.function

/-- The task type whose label equals the given string, if any; models the
membership test `TASK_TYPES_LIST.includes(taskType)` together with the cast
of the matched string to `TaskType` in extension.ts `classifyPrompt`. -/
def taskTypeOfString (s : String) : Option TaskType :=
  TASK_TYPES_LIST.find? (fun t => taskTypeName t = s)

/-- Attempt of the regex `TASK:(\S+)` (case-insensitive) at the head of the
character list: the five literal characters, then a greedy non-empty run of
non-whitespace characters as the capture. -/
def taskMatchAt : List Char → Option String
  | t :: a :: s :: k :: col :: rest =>
    if t.toLower = 't' ∧ a.toLower = 'a' ∧ s.toLower = 's' ∧ k.toLower = 'k' ∧ col = ':' then
      let cap := rest.takeWhile (fun c => !c.isWhitespace)
      if cap.isEmpty then none else some (String.mk cap)
    else none
  | _ => none

/-- Leftmost match of `TASK:(\S+)` (case-insensitive) in the character list,
returning the captured label; models `result.match(/TASK:(\S+)/i)`. -/
def findTaskCapture : List Char → Option String
  | [] => none
  | c :: cs =>
    match taskMatchAt (c :: cs) with
    | some cap => some cap
    | none => findTaskCapture cs

/-- Outcome of the single external classifier call made by `classifyPrompt`:
no backend for the classifier family, an error or cancellation during the
call, or the fully drained response text. -/
inductive ClassifierOutcome where
  | noBackend
  | failure
  | response (text : String)
deriving DecidableEq, Repr

/-- Two-pass classification (extension.ts `classifyPrompt`).  The external
call is represented by its `ClassifierOutcome`; every branch that the source
recovers from returns the keyword fallback. -/
def classifyPrompt (cfg : Config) (prompt : String) (outcome : ClassifierOutcome) : TaskType :=
  match getModel cfg.classifierModel with
  | none => fallbackClassify prompt
  | some _ =>
    match outcome with
    | ClassifierOutcome.noBackend => fallbackClassify prompt
    | ClassifierOutcome.failure => fallbackClassify prompt
    | ClassifierOutcome.response text =>
      match findTaskCapture text.toList with
      | some cap =>
        match taskTypeOfString (toLowerString cap) with
        | some t => t
        | none => fallbackClassify prompt
      | none => fallbackClassify prompt

/-- The result of the primary classification attempt alone: a task type
exactly when the classifier model is in the catalog, the call returned a
response, and the leftmost `TASK:` capture lowercases to a known label. -/
def primaryClassification (cfg : Config) (outcome : ClassifierOutcome) : Option TaskType :=
  match getModel cfg.classifierModel, outcome with
  | some _, ClassifierOutcome.response text =>
    (findTaskCapture text.toList).bind (fun cap => taskTypeOfString (toLowerString cap))
  | _, _ => none

/-- The three feedback ratings (feedback.ts `FeedbackEntry.rating`). -/
inductive Rating where
  | positive
  | negative
  | override
deriving DecidableEq, Repr

/-- One record of the feedback log (feedback.ts `FeedbackEntry`). -/
structure FeedbackEntry where
  timestamp : String
  requestId : String
  selectedModel : String
  taskType : String
  rating : Rating
  overriddenTo : Option String
  promptLength : Option Nat
  responseTime : Option Nat
deriving DecidableEq, Repr

/-- Trim step of feedback persistence (feedback.ts `persistFeedback`):
keep the last 1000 entries.  `slice(-1000)` keeps the final 1000 elements,
i.e. drops `length - 1000` from the front. -/
def persistFeedback (log : List FeedbackEntry) : List FeedbackEntry :=
  if log.length > 1000 then log.drop (log.length - 1000) else log

/-- Record explicit feedback (feedback.ts `recordFeedback`): build an entry,
append it, and persist with trimming.  The timestamp is passed in, standing
for `new Date().toISOString()`. -/
def recordFeedback (log : List FeedbackEntry) (ts requestId selectedModel taskType : String)
    (rating : Rating) (promptLength responseTime : Option Nat) : List FeedbackEntry :=
  persistFeedback (log ++
    [{ timestamp := ts, requestId := requestId, selectedModel := selectedModel,
       taskType := taskType, rating := rating, overriddenTo := none,
       promptLength := promptLength, responseTime := responseTime }])

/-- Record implicit override feedback (feedback.ts `recordOverride`). -/
def recordOverride (log : List FeedbackEntry) (ts requestId originalModel overriddenTo taskType : String) :
    List FeedbackEntry :=
  persistFeedback (log ++
    [{ timestamp := ts, requestId := requestId, selectedModel := originalModel,
       taskType := taskType, rating := Rating.override, overriddenTo := some overriddenTo,
       promptLength := none, responseTime := none }])

/-- One append to the feedback log: either an explicit rating or an override. -/
inductive FeedbackOp where
  | feedback (ts requestId selectedModel taskType : String)
      (rating : Rating) (promptLength responseTime : Option Nat)
  | override (ts requestId originalModel overriddenTo taskType : String)
deriving DecidableEq, Repr

/-- Apply one feedback-log operation through the source's two entry points. -/
def applyFeedbackOp (log : List FeedbackEntry) : FeedbackOp → List FeedbackEntry
  | FeedbackOp.feedback ts rid sel tt rating pl rt => recordFeedback log ts rid sel tt rating pl rt
  | FeedbackOp.override ts rid orig ov tt => recordOverride log ts rid orig ov tt

/-- The single entry an operation appends before trimming. -/
def entryOfOp : FeedbackOp → FeedbackEntry
  | FeedbackOp.feedback ts rid sel tt rating pl rt =>
    { timestamp := ts, requestId := rid, selectedModel := sel, taskType := tt,
      rating := rating, overriddenTo := none, promptLength := pl, responseTime := rt }
  | FeedbackOp.override ts rid orig ov tt =>
    { timestamp := ts, requestId := rid, selectedModel := orig, taskType := tt,
      rating := Rating.override, overriddenTo := some ov, promptLength := none,
      responseTime := none }

/-- Session-wide usage counters (extension.ts `sessionStats`).  The two
string-keyed records are modelled as association lists in key-insertion
order, matching JavaScript object semantics. -/
structure SessionStats where
  requestCount : Nat
  tokenInput : Rat
  tokenOutput : Rat
  creditsByModel : List (String × Rat)
  taskTypes : List (String × Nat)
  totalCreditsUsed : Rat
deriving DecidableEq, Repr

/-- The initial session statistics (extension.ts lines 25-31). -/
def initialSessionStats : SessionStats :=
  { requestCount := 0, tokenInput := 0, tokenOutput := 0,
    creditsByModel := [], taskTypes := [], totalCreditsUsed := 0 }

/-- JavaScript-object update `rec[k] = (rec[k] || 0) + v` on a rational-valued
record: bump an existing key in place, or append a new key at the end. -/
def bumpCredit : List (String × Rat) → String → Rat → List (String × Rat)
  | [], k, v => [(k, v)]
  | (k', v') :: rest, k, v =>
    if k' = k then (k', v' + v) :: rest else (k', v') :: bumpCredit rest k v

/-- The same update on a natural-valued record (`taskTypes[t] = (taskTypes[t] || 0) + 1`). -/
def bumpCount : List (String × Nat) → String → Nat → List (String × Nat)
  | [], k, v => [(k, v)]
  | (k', v') :: rest, k, v =>
    if k' = k then (k', v' + v) :: rest else (k', v') :: bumpCount rest k v

/-- Sum of the values of a rational-valued record. -/
def sumValues (rec : List (String × Rat)) : Rat :=
  (rec.map Prod.snd).sum

/-- The statistics update performed after a completed execution
(extension.ts lines 346-352): request count, heuristic token counts
(character length divided by four), the per-model credit record, the
per-task count, and the running credit total. -/
def recordCompletion (st : SessionStats) (model : ModelDefinition) (taskType : TaskType)
    (promptLen outputLen : Nat) : SessionStats :=
  { requestCount := st.requestCount + 1,
    tokenInput := st.tokenInput + (promptLen : Rat) / 4,
    tokenOutput := st.tokenOutput + (outputLen : Rat) / 4,
    creditsByModel := bumpCredit st.creditsByModel model.id model.creditMultiplier,
    taskTypes := bumpCount st.taskTypes (taskTypeName taskType) 1,
    totalCreditsUsed := st.totalCreditsUsed + model.creditMultiplier }

/-- Single-slot memory of the most recently completed request
(extension.ts `lastRequest`). -/
structure LastRequest where
  prompt : String
  requestId : String
  modelId : String
  taskType : String
deriving DecidableEq, Repr

/-- The process state the chat handler reads and writes: the session
counters, the last-request slot, and the feedback log. -/
structure SessionState where
  stats : SessionStats
  lastRequest : Option LastRequest
  feedbackLog : List FeedbackEntry
deriving DecidableEq, Repr

/-- The initial process state: fresh counters, no prior request, empty log. -/
def initialSessionState : SessionState :=
  { stats := initialSessionStats, lastRequest := none, feedbackLog := [] }

/-- Everything a completed chat request produces: the model that executed,
the task label used for bookkeeping, whether the restriction notice was
emitted, and the updated process state. -/
structure CompletedRequest where
  selected : ModelDefinition
  taskType : TaskType
  restricted : Bool
  state : SessionState
deriving DecidableEq, Repr

/-- The tail of the chat handler shared by the forced and automatic paths
(extension.ts lines 302-355, for a request whose execution completes): the
final policy guard with its gpt-4o substitution and restriction notice,
then the statistics update and the overwrite of the last-request slot. -/
def finishRequest (cfg : Config) (st : SessionState) (chosen : ModelDefinition)
    (taskType : TaskType) (log1 : List FeedbackEntry)
    (cleanPrompt requestId : String) (outputLen : Nat) : CompletedRequest :=
  let selected := if isModelAllowed cfg chosen then chosen else (getModel "gpt-4o").get!
  { selected := selected, taskType := taskType,
    restricted := !isModelAllowed cfg chosen,
    state :=
      { stats := recordCompletion st.stats selected taskType cleanPrompt.length outputLen,
        lastRequest := some { prompt := cleanPrompt, requestId := requestId,
                              modelId := selected.id, taskType := taskTypeName taskType },
        feedbackLog := log1 } }

/-- The routing core of `handleChatRequest` (extension.ts lines 280-355) for
a request that completes: the forced path asserts the forced id is in the
catalog (`getModel(forcedId)!`, modelled as `none` on the assertion failure),
classifies with the keyword fallback only, and emits an override record when
the forced id differs from the last request's model; the automatic path runs
the two-pass classifier and task routing.  Both then run `finishRequest`. -/
def handleCompletedRequest (cfg : Config) (st : SessionState) (forcedId : Option String)
    (cleanPrompt : String) (outcome : ClassifierOutcome) (requestId ts : String)
    (outputLen : Nat) : Option CompletedRequest :=
  match forcedId with
  | some fid =>
    match getModel fid with
    | none => none
    | some m =>
      let taskType := fallbackClassify cleanPrompt
      let log1 :=
        match st.lastRequest with
        | some lr =>
          if lr.modelId ≠ fid then
            recordOverride st.feedbackLog ts requestId lr.modelId fid (taskTypeName taskType)
          else st.feedbackLog
        | none => st.feedbackLog
      some (finishRequest cfg st m taskType log1 cleanPrompt requestId outputLen)
  | none =>
    let taskType := classifyPrompt cfg cleanPrompt outcome
    some (finishRequest cfg st (getModelForTask cfg taskType) taskType st.feedbackLog
      cleanPrompt requestId outputLen)

/-- All inputs of one completed request, for folding request sequences. -/
structure RequestInput where
  cfg : Config
  forcedId : Option String
  cleanPrompt : String
  outcome : ClassifierOutcome
  requestId : String
  ts : String
  outputLen : Nat

/-- Fold step over completed requests; a forced id missing from the catalog
(where the source would crash on its non-null assertion) leaves the state
unchanged. -/
def stepState (st : SessionState) (i : RequestInput) : SessionState :=
  match handleCompletedRequest i.cfg st i.forcedId i.cleanPrompt i.outcome i.requestId i.ts i.outputLen with
  | some res => res.state
  | none => st

/-- Budget utilization as the status bar computes it (extension.ts line 208):
guarded against a zero budget and clamped at 100. -/
def statusBarPercent (monthlyBudget totalCreditsUsed : Rat) : Rat :=
  if monthlyBudget > 0 then min 100 (totalCreditsUsed / monthlyBudget * 100) else 0

/-- Budget utilization as the stats command computes it (extension.ts line
403): guarded against a zero budget but not clamped. -/
def statsCommandPercent (monthlyBudget totalCreditsUsed : Rat) : Rat :=
  if monthlyBudget > 0 then totalCreditsUsed / monthlyBudget * 100 else 0

/-- Budget utilization as the budget command computes it (extension.ts line
436): neither guarded nor clamped. -/
def budgetCommandPercent (monthlyBudget totalCreditsUsed : Rat) : Rat :=
  totalCreditsUsed / monthlyBudget * 100

/-- Index of a tier in the fixed order free < cheap < standard < premium,
written directly from the specification's wording. -/
def tierRank : CreditTier → Nat
  | CreditTier.free => 0
  | CreditTier.cheap => 1
  | CreditTier.standard => 2
  | CreditTier.premium => 3

/-- Model resolution as the specification words it: the admin-configured
model when it exists in the catalog and passes the policy check, otherwise
the default-routing model under the same gate, otherwise the zero-cost
default model gpt-4o.  Claim-side definition, compared with
`getModelForTask`. -/
def resolveModelSpec (cfg : Config) (t : TaskType) : ModelDefinition :=
  match (cfg.taskRouting t).bind (fun rid => (getModel rid).filter (fun m => isModelAllowed cfg m)) with
  | some m => m
  | none =>
    match (getModel (DEFAULT_TASK_ROUTING t)).filter (fun m => isModelAllowed cfg m) with
    | some m => m
    | none => modelGpt4o

/-- The accounting invariant: the running credit total equals the sum of the
per-model credit record. -/
def creditInvariant (st : SessionStats) : Prop :=
  st.totalCreditsUsed = sumValues st.creditsByModel

/-- A configuration that blocks claude-opus-4.5, for concrete instantiation. -/
def cfgOpusBlocked : Config :=
  { defaultConfig with blockedModels := ["claude-opus-4.5"] }

/-- A configuration that blocks the zero-cost default gpt-4o itself. -/
def cfgGpt4oBlocked : Config :=
  { defaultConfig with blockedModels := ["gpt-4o"] }

/-- A configuration that blocks both gpt-4o and claude-opus-4.5. -/
def cfgBothBlocked : Config :=
  { defaultConfig with blockedModels := ["gpt-4o", "claude-opus-4.5"] }

/-- A session state whose last completed request used gpt-4o. -/
def stWithLast : SessionState :=
  { stats := initialSessionStats,
    lastRequest := some { prompt := "p0", requestId := "r0", modelId := "gpt-4o",
                          taskType := "function" },
    feedbackLog := [] }

/-! Helper lemmas shared by the claim theorems. -/

lemma indexOf_tierOrder (t : CreditTier) : tierOrder.indexOf t = tierRank t := by
  cases t <;> rfl

lemma getModel_gpt4o_eval : (getModel "gpt-4o").get! = modelGpt4o := rfl

lemma applyFeedbackOp_eq (log : List FeedbackEntry) (op : FeedbackOp) :
    applyFeedbackOp log op = persistFeedback (log ++ [entryOfOp op]) := by
  cases op <;> rfl

lemma persist_step (pre : List FeedbackEntry) (e : FeedbackEntry) :
    persistFeedback (pre.drop (pre.length - 1000) ++ [e])
      = (pre ++ [e]).drop ((pre ++ [e]).length - 1000) := by
  by_cases h : pre.length ≤ 999
  · have h0 : pre.length - 1000 = 0 := by omega
    have h1 : (pre ++ [e]).length - 1000 = 0 := by simp; omega
    have h2 : ¬ (pre ++ [e]).length > 1000 := by simp; omega
    rw [h0, List.drop_zero, persistFeedback, if_neg h2, h1, List.drop_zero]
  · have hge : 1000 ≤ pre.length := by omega
    have hlen : (pre.drop (pre.length - 1000)).length = 1000 := by
      rw [List.length_drop]; omega
    have hgt : (pre.drop (pre.length - 1000) ++ [e]).length > 1000 := by
      simp [List.length_append, hlen]
    rw [persistFeedback, if_pos hgt]
    have hd1 : (pre.drop (pre.length - 1000) ++ [e]).length - 1000 = 1 := by
      simp [List.length_append, hlen]
    rw [hd1]
    have hdrop1 : (pre.drop (pre.length - 1000) ++ [e]).drop 1
        = (pre.drop (pre.length - 1000)).drop 1 ++ [e] := by
      rw [List.drop_append_of_le_length]; omega
    rw [hdrop1, List.drop_drop]
    have harith : pre.length - 1000 + 1 = (pre ++ [e]).length - 1000 := by
      simp; omega
    rw [harith, List.drop_append_of_le_length (by simp only [List.length_append, List.length_singleton]; omega)]

lemma foldl_feedback_suffix (ops : List FeedbackOp) :
    ∀ pre : List FeedbackEntry,
      ops.foldl applyFeedbackOp (pre.drop (pre.length - 1000))
        = (pre ++ ops.map entryOfOp).drop ((pre ++ ops.map entryOfOp).length - 1000) := by
  induction ops with
  | nil => intro pre; simp
  | cons op ops ih =>
    intro pre
    rw [List.foldl_cons, applyFeedbackOp_eq, persist_step]
    have h := ih (pre ++ [entryOfOp op])
    rw [List.append_assoc] at h
    simpa using h

lemma sumValues_bumpCredit (rec : List (String × Rat)) (k : String) (v : Rat) :
    sumValues (bumpCredit rec k v) = sumValues rec + v := by
  induction rec with
  | nil => simp [bumpCredit, sumValues]
  | cons hd tl ih =>
    obtain ⟨k', v'⟩ := hd
    by_cases hk : k' = k
    · simp [bumpCredit, hk, sumValues]
      ring
    · simp [bumpCredit, hk, sumValues] at ih ⊢
      rw [ih]
      ring

lemma recordCompletion_invariant (st : SessionStats) (m : ModelDefinition) (t : TaskType)
    (pl ol : Nat) (h : creditInvariant st) :
    creditInvariant (recordCompletion st m t pl ol) := by
  unfold creditInvariant recordCompletion at *
  simp [sumValues_bumpCredit, h]

lemma handleCompletedRequest_stats (cfg : Config) (st : SessionState) (forcedId : Option String)
    (prompt : String) (outcome : ClassifierOutcome) (rid ts : String) (ol : Nat)
    (res : CompletedRequest)
    (h : handleCompletedRequest cfg st forcedId prompt outcome rid ts ol = some res) :
    res.state.stats = recordCompletion st.stats res.selected res.taskType prompt.length ol := by
  unfold handleCompletedRequest at h
  cases forcedId with
  | none =>
    simp only [Option.some.injEq] at h
    subst h
    rfl
  | some fid =>
    dsimp only at h
    cases hm : getModel fid with
    | none => rw [hm] at h; exact absurd h (by simp)
    | some m =>
      rw [hm] at h
      simp only [Option.some.injEq] at h
      subst h
      rfl

lemma stepState_invariant (st : SessionState) (i : RequestInput)
    (h : creditInvariant st.stats) : creditInvariant (stepState st i).stats := by
  unfold stepState
  cases hr : handleCompletedRequest i.cfg st i.forcedId i.cleanPrompt i.outcome i.requestId i.ts i.outputLen with
  | none => exact h
  | some res =>
    rw [handleCompletedRequest_stats i.cfg st i.forcedId i.cleanPrompt i.outcome i.requestId i.ts i.outputLen res hr]
    exact recordCompletion_invariant _ _ _ _ _ h

lemma handleForced_eq (cfg : Config) (st : SessionState) (fid : String) (m : ModelDefinition)
    (prompt : String) (outcome : ClassifierOutcome) (rid ts : String) (ol : Nat)
    (hm : getModel fid = some m) :
    handleCompletedRequest cfg st (some fid) prompt outcome rid ts ol
      = some (finishRequest cfg st m (fallbackClassify prompt)
          (match st.lastRequest with
           | some lr =>
             if lr.modelId ≠ fid then
               recordOverride st.feedbackLog ts rid lr.modelId fid (taskTypeName (fallbackClassify prompt))
             else st.feedbackLog
           | none => st.feedbackLog)
          prompt rid ol) := by
  unfold handleCompletedRequest
  dsimp only
  rw [hm]

lemma lookup_bumpCredit_ne (rec : List (String × Rat)) (k k' : String) (v : Rat)
    (h : k ≠ k') : List.lookup k (bumpCredit rec k' v) = List.lookup k rec := by
  have hbe : (k == k') = false := beq_eq_false_iff_ne.mpr h
  induction rec with
  | nil => simp [bumpCredit, List.lookup, hbe]
  | cons hd tl ih =>
    obtain ⟨ka, va⟩ := hd
    by_cases hk : ka = k'
    · have hbe2 : (k == ka) = false := by rw [hk]; exact hbe
      simp [bumpCredit, hk, List.lookup, hbe2, hbe]
    · simp [bumpCredit, hk, List.lookup, ih]

lemma isModelAllowed_gpt4o_blocked (cfg : Config) (h : "gpt-4o" ∈ cfg.blockedModels) :
    isModelAllowed cfg modelGpt4o = false := by
  unfold isModelAllowed
  have hc : cfg.blockedModels.contains modelGpt4o.id = true := by
    simp [List.contains, List.elem_eq_mem, modelGpt4o, h]
  simp only [hc]
  simp

/-! The claim theorems. -/

/-- Claim C3: for every model and configuration, the policy check returns
true exactly when the model's id is not in blockedModels and the index of
its credit tier in the fixed order free < cheap < standard < premium is at
most the index of the configured maxCreditTier; in particular it returns
false whenever the id is blocked.  Being a Lean function of the model and
the configuration snapshot, it is pure by construction. -/
theorem isModelAllowed_iff (cfg : Config) (m : ModelDefinition) :
    isModelAllowed cfg m = true ↔
      m.id ∉ cfg.blockedModels ∧ tierRank m.creditTier ≤ tierRank cfg.maxCreditTier := by
  unfold isModelAllowed
  rw [indexOf_tierOrder, indexOf_tierOrder]
  by_cases hb : m.id ∈ cfg.blockedModels
  · simp [List.contains, List.elem_eq_mem, hb]
  · simp [List.contains, List.elem_eq_mem, hb]

/-- Claim C2: automatic model resolution agrees with the specification's
priority cascade: the admin-configured model for the task when it exists in
the catalog and passes the policy check, otherwise the built-in default
routing entry under the same gate, otherwise the zero-cost default model
gpt-4o.  Admin overrides therefore take precedence over defaults, and policy
filtering takes precedence over both routing preferences. -/
theorem getModelForTask_eq_spec (cfg : Config) (t : TaskType) :
    getModelForTask cfg t = resolveModelSpec cfg t := by
  unfold getModelForTask resolveModelSpec
  cases hr : cfg.taskRouting t with
  | none =>
    simp only [Option.bind]
    cases hd : getModel (DEFAULT_TASK_ROUTING t) with
    | none => simp [Option.filter, getModel_gpt4o_eval]
    | some md =>
      by_cases ha : isModelAllowed cfg md <;> simp [Option.filter, ha, getModel_gpt4o_eval]
  | some rid =>
    simp only [Option.bind]
    cases hm : getModel rid with
    | none =>
      cases hd : getModel (DEFAULT_TASK_ROUTING t) with
      | none => simp [Option.filter, getModel_gpt4o_eval]
      | some md =>
        by_cases ha : isModelAllowed cfg md <;> simp [Option.filter, ha, getModel_gpt4o_eval]
    | some mr =>
      by_cases har : isModelAllowed cfg mr
      · simp [Option.filter, har]
      · cases hd : getModel (DEFAULT_TASK_ROUTING t) with
        | none => simp [Option.filter, har, getModel_gpt4o_eval]
        | some md =>
          by_cases ha : isModelAllowed cfg md <;> simp [Option.filter, har, ha, getModel_gpt4o_eval]

/-- Claim C8: the two-pass classifier returns the task type parsed from the
classifier response when the classifier model is in the catalog, a response
was obtained, and the leftmost case-insensitive TASK:(non-whitespace-run)
capture lowercases to one of the 13 known labels; in every other case — the
model id absent from the catalog, no backend, an error or cancellation, no
parseable capture, or an unknown label — it returns the keyword fallback on
the prompt, with no retry of the single primary attempt. -/
theorem classifyPrompt_primary_or_fallback (cfg : Config) (prompt : String) (outcome : ClassifierOutcome) :
    classifyPrompt cfg prompt outcome = (primaryClassification cfg outcome).getD (fallbackClassify prompt) := by
  unfold classifyPrompt primaryClassification
  cases hm : getModel cfg.classifierModel with
  | none => cases outcome <;> rfl
  | some d =>
    cases outcome with
    | noBackend => rfl
    | failure => rfl
    | response text =>
      simp only [String.toList]
      cases hc : findTaskCapture text.data with
      | none => simp [hc]
      | some cap =>
        cases ht : taskTypeOfString (toLowerString cap) with
        | none => simp [hc, ht]
        | some tt => simp [hc, ht]

/-- Claim C4: the keyword fallback classifier is a total function that
returns the label of the first rule, in the fixed order test, debug,
security, architecture, refactor, algorithm, review, documentation,
conversion, function, simple, autocomplete, whose keywords match the
lowercased prompt (so a prompt with both test and debug vocabulary
classifies as test), and returns function when no rule matches. -/
theorem fallbackClassify_first_match (prompt : String) :
    fallbackClassify prompt = fallbackClassifySpec prompt := by
  unfold fallbackClassify fallbackClassifySpec FALLBACK_RULES
  set p := toLowerString prompt with hp
  cases h1 : matchesAny p ["test", "spec", "jest", "pytest", "unit", "mock"] with
  | true => simp [List.find?, h1]
  | false =>
    cases h2 : matchesAny p ["debug", "hata", "error", "bug", "fix", "crash"] with
    | true => simp [List.find?, h1, h2]
    | false =>
      cases h3 : matchesAny p ["security", "güvenlik", "vulnerability", "xss", "sql injection"] with
      | true => simp [List.find?, h1, h2, h3]
      | false =>
        cases h4 : matchesAny p ["architecture", "mimari", "design", "microservice", "scale"] with
        | true => simp [List.find?, h1, h2, h3, h4]
        | false =>
          cases h5 : matchesAny p ["refactor", "yeniden yaz", "rewrite", "clean", "solid"] with
          | true => simp [List.find?, h1, h2, h3, h4, h5]
          | false =>
            cases h6 : matchesAny p ["algorithm", "algoritma", "sort", "search", "recursive"] with
            | true => simp [List.find?, h1, h2, h3, h4, h5, h6]
            | false =>
              cases h7 : matchesAny p ["review", "incele", "check", "best practice"] with
              | true => simp [List.find?, h1, h2, h3, h4, h5, h6, h7]
              | false =>
                cases h8 : matchesAny p ["document", "readme", "jsdoc", "açıkla", "explain"] with
                | true => simp [List.find?, h1, h2, h3, h4, h5, h6, h7, h8]
                | false =>
                  cases h9 : matchesAny p ["convert", "dönüştür", "migrate", "transform"] with
                  | true => simp [List.find?, h1, h2, h3, h4, h5, h6, h7, h8, h9]
                  | false =>
                    cases h10 : matchesAny p ["fonksiyon", "function", "method", "class", "write", "yaz"] with
                    | true => simp [List.find?, h1, h2, h3, h4, h5, h6, h7, h8, h9, h10]
                    | false =>
                      cases h11 : matchesAny p ["basit", "simple", "import", "typo", "renk"] with
                      | true => simp [List.find?, h1, h2, h3, h4, h5, h6, h7, h8, h9, h10, h11]
                      | false =>
                        cases h12 : matchesAny p ["tamamla", "complete", "finish"] with
                        | true => simp [List.find?, h1, h2, h3, h4, h5, h6, h7, h8, h9, h10, h11, h12]
                        | false =>
                          simp [List.find?, h1, h2, h3, h4, h5, h6, h7, h8, h9, h10, h11, h12]

/-- Claim C5: in every state reachable from the initial session state by any
sequence of completed requests, the running credit total equals the sum of
the per-model credit record; each completion adds the selected model's
credit multiplier to both together, and the feedback-log operations, which
are the only other state updates, do not touch the statistics. -/
theorem totalCredits_eq_sum (reqs : List RequestInput) :
    ((reqs.foldl stepState initialSessionState).stats).totalCreditsUsed
      = sumValues ((reqs.foldl stepState initialSessionState).stats).creditsByModel := by
  suffices h : ∀ st, creditInvariant st.stats → creditInvariant ((reqs.foldl stepState st).stats) by
    exact h initialSessionState rfl
  induction reqs with
  | nil => intro st h; exact h
  | cons r rs ih =>
    intro st h
    rw [List.foldl_cons]
    exact ih _ (stepState_invariant st r h)

/-- Claim C6: after any sequence of recordFeedback and recordOverride calls
starting from the empty log, the log equals the suffix of the appended
entries past the first length - 1000, i.e. exactly the most recently
appended 1000 entries in their original relative order once more than 1000
have been appended, and its length never exceeds 1000. -/
theorem feedbackLog_cap (ops : List FeedbackOp) :
    ops.foldl applyFeedbackOp [] = (ops.map entryOfOp).drop (ops.length - 1000)
    ∧ (ops.foldl applyFeedbackOp []).length ≤ 1000 := by
  have h := foldl_feedback_suffix ops []
  simp only [List.drop_nil, List.nil_append, List.length_map] at h
  refine ⟨h, ?_⟩
  rw [h, List.length_drop, List.length_map]
  omega

/-- Claim C7: with a recorded last request, forcing the same model id emits
no override record (the feedback log is unchanged), while forcing a
different id appends exactly one entry whose selectedModel is the prior
request's model id, whose overriddenTo is the newly forced id, and whose
rating is override, persisted through the usual trim. -/
theorem override_record_iff_changed (cfg : Config) (st : SessionState) (fid : String)
    (m : ModelDefinition) (lr : LastRequest) (prompt : String) (outcome : ClassifierOutcome)
    (rid ts : String) (ol : Nat)
    (hm : getModel fid = some m) (hlast : st.lastRequest = some lr) :
    ∃ res, handleCompletedRequest cfg st (some fid) prompt outcome rid ts ol = some res ∧
      res.state.feedbackLog =
        (if lr.modelId = fid then st.feedbackLog
         else persistFeedback (st.feedbackLog ++
           [{ timestamp := ts, requestId := rid, selectedModel := lr.modelId,
              taskType := taskTypeName (fallbackClassify prompt), rating := Rating.override,
              overriddenTo := some fid, promptLength := none, responseTime := none }])) := by
  refine ⟨_, handleForced_eq cfg st fid m prompt outcome rid ts ol hm, ?_⟩
  rw [hlast]
  by_cases he : lr.modelId = fid
  · simp [finishRequest, he]
  · simp [finishRequest, he, recordOverride]

/-- Witness for claim C7, at a state whose last request used gpt-4o: forcing
claude-opus-4.5 appends one override record, and forcing gpt-4o again leaves
the log unchanged. -/
theorem override_record_iff_changed_witness :
    (∃ res, handleCompletedRequest defaultConfig stWithLast (some "claude-opus-4.5") "hi"
        ClassifierOutcome.failure "r1" "t1" 0 = some res ∧
      res.state.feedbackLog =
        (if ("gpt-4o" : String) = "claude-opus-4.5" then stWithLast.feedbackLog
         else persistFeedback (stWithLast.feedbackLog ++
           [{ timestamp := "t1", requestId := "r1", selectedModel := "gpt-4o",
              taskType := taskTypeName (fallbackClassify "hi"), rating := Rating.override,
              overriddenTo := some "claude-opus-4.5", promptLength := none,
              responseTime := none }]))) ∧
    (∃ res, handleCompletedRequest defaultConfig stWithLast (some "gpt-4o") "hi"
        ClassifierOutcome.failure "r2" "t2" 0 = some res ∧
      res.state.feedbackLog =
        (if ("gpt-4o" : String) = "gpt-4o" then stWithLast.feedbackLog
         else persistFeedback (stWithLast.feedbackLog ++
           [{ timestamp := "t2", requestId := "r2", selectedModel := "gpt-4o",
              taskType := taskTypeName (fallbackClassify "hi"), rating := Rating.override,
              overriddenTo := some "gpt-4o", promptLength := none,
              responseTime := none }]))) :=
  ⟨override_record_iff_changed defaultConfig stWithLast "claude-opus-4.5" modelClaudeOpus45
      { prompt := "p0", requestId := "r0", modelId := "gpt-4o", taskType := "function" }
      "hi" ClassifierOutcome.failure "r1" "t1" 0 rfl rfl,
   override_record_iff_changed defaultConfig stWithLast "gpt-4o" modelGpt4o
      { prompt := "p0", requestId := "r0", modelId := "gpt-4o", taskType := "function" }
      "hi" ClassifierOutcome.failure "r2" "t2" 0 rfl rfl⟩

/-- Counterexample to claim C1 as stated: with gpt-4o itself in
blockedModels, forcing X = gpt-4o fails the policy check, yet the completed
request records its credit spend under the key gpt-4o, which is X — so the
recorded entry is not "for the substituted default model, not for X". -/
theorem forced_blocked_substitution_counterexample :
    isModelAllowed cfgGpt4oBlocked modelGpt4o = false ∧
    (handleCompletedRequest cfgGpt4oBlocked initialSessionState (some "gpt-4o") "hi"
        ClassifierOutcome.failure "r1" "t1" 0).map
      (fun res => (res.selected.id, res.restricted, res.state.stats.creditsByModel))
      = some ("gpt-4o", true, [("gpt-4o", 0)]) := by
  constructor
  · decide
  · decide

/-- Claim C1 (amended): for every completed request forcing a model X that
fails the policy check, the request proceeds with the zero-cost default
gpt-4o, a restriction notice is emitted, and the credit spend recorded after
completion — the creditsByModel key and the amount added to
totalCreditsUsed — is for the substituted default model; X's own entry is
untouched whenever X is not itself gpt-4o (when X is gpt-4o the recorded key
coincides with X). -/
theorem forced_blocked_substitution (cfg : Config) (st : SessionState) (fid : String)
    (m : ModelDefinition) (prompt : String) (outcome : ClassifierOutcome)
    (rid ts : String) (ol : Nat)
    (hm : getModel fid = some m) (hdis : isModelAllowed cfg m = false) :
    ∃ res, handleCompletedRequest cfg st (some fid) prompt outcome rid ts ol = some res ∧
      res.selected = modelGpt4o ∧
      res.restricted = true ∧
      res.state.stats.creditsByModel
        = bumpCredit st.stats.creditsByModel "gpt-4o" modelGpt4o.creditMultiplier ∧
      res.state.stats.totalCreditsUsed = st.stats.totalCreditsUsed + modelGpt4o.creditMultiplier ∧
      (fid ≠ "gpt-4o" →
        List.lookup fid res.state.stats.creditsByModel = List.lookup fid st.stats.creditsByModel) := by
  refine ⟨_, handleForced_eq cfg st fid m prompt outcome rid ts ol hm, ?_, ?_, ?_, ?_, ?_⟩
  · simp [finishRequest, hdis, getModel_gpt4o_eval]
  · simp [finishRequest, hdis]
  · simp [finishRequest, recordCompletion, hdis, getModel_gpt4o_eval,
      show modelGpt4o.id = "gpt-4o" from rfl]
  · simp [finishRequest, recordCompletion, hdis, getModel_gpt4o_eval]
  · intro hne
    simp only [finishRequest, recordCompletion, hdis, getModel_gpt4o_eval]
    simp only [Bool.false_eq_true, if_false]
    rw [show modelGpt4o.id = "gpt-4o" from rfl]
    exact lookup_bumpCredit_ne st.stats.creditsByModel fid "gpt-4o" modelGpt4o.creditMultiplier hne

/-- Witness for amended claim C1: forcing claude-opus-4.5 under a
configuration that blocks it. -/
theorem forced_blocked_substitution_witness :
    ∃ res, handleCompletedRequest cfgOpusBlocked initialSessionState (some "claude-opus-4.5") "hi"
        ClassifierOutcome.failure "r1" "t1" 0 = some res ∧
      res.selected = modelGpt4o ∧
      res.restricted = true ∧
      res.state.stats.creditsByModel
        = bumpCredit initialSessionState.stats.creditsByModel "gpt-4o" modelGpt4o.creditMultiplier ∧
      res.state.stats.totalCreditsUsed
        = initialSessionState.stats.totalCreditsUsed + modelGpt4o.creditMultiplier ∧
      (("claude-opus-4.5" : String) ≠ "gpt-4o" →
        List.lookup "claude-opus-4.5" res.state.stats.creditsByModel
          = List.lookup "claude-opus-4.5" initialSessionState.stats.creditsByModel) :=
  forced_blocked_substitution cfgOpusBlocked initialSessionState "claude-opus-4.5"
    modelClaudeOpus45 "hi" ClassifierOutcome.failure "r1" "t1" 0 rfl (by decide)

/-- Claim C10: when the model selected for a completing request fails the
final policy check, the substitute is unconditionally the catalog entry
gpt-4o with no policy re-check of the substitute, and the completion charges
gpt-4o's credit multiplier; in particular, under any configuration that
blocks gpt-4o itself, the executed and recorded model is one the policy
check rejects. -/
theorem policy_substitute_unchecked (cfg : Config) (st : SessionState)
    (chosen : ModelDefinition) (tt : TaskType) (log : List FeedbackEntry)
    (prompt rid : String) (ol : Nat)
    (hdis : isModelAllowed cfg chosen = false) :
    (finishRequest cfg st chosen tt log prompt rid ol).selected = modelGpt4o ∧
    (finishRequest cfg st chosen tt log prompt rid ol).restricted = true ∧
    (finishRequest cfg st chosen tt log prompt rid ol).state.stats.creditsByModel
      = bumpCredit st.stats.creditsByModel "gpt-4o" modelGpt4o.creditMultiplier ∧
    (finishRequest cfg st chosen tt log prompt rid ol).state.stats.totalCreditsUsed
      = st.stats.totalCreditsUsed + modelGpt4o.creditMultiplier ∧
    ("gpt-4o" ∈ cfg.blockedModels →
      isModelAllowed cfg (finishRequest cfg st chosen tt log prompt rid ol).selected = false) := by
  refine ⟨?_, ?_, ?_, ?_, ?_⟩
  · simp [finishRequest, hdis, getModel_gpt4o_eval]
  · simp [finishRequest, hdis]
  · simp [finishRequest, recordCompletion, hdis, getModel_gpt4o_eval,
      show modelGpt4o.id = "gpt-4o" from rfl]
  · simp [finishRequest, recordCompletion, hdis, getModel_gpt4o_eval]
  · intro hb
    have h1 : (finishRequest cfg st chosen tt log prompt rid ol).selected = modelGpt4o := by
      simp [finishRequest, hdis, getModel_gpt4o_eval]
    rw [h1]
    exact isModelAllowed_gpt4o_blocked cfg hb

/-- Witness for claim C10: a configuration blocking both gpt-4o and
claude-opus-4.5 still executes gpt-4o, a model its own policy check
rejects. -/
theorem policy_substitute_unchecked_witness :
    (finishRequest cfgBothBlocked initialSessionState modelClaudeOpus45 TaskType.architecture
        [] "hi" "r1" 0).selected = modelGpt4o ∧
    isModelAllowed cfgBothBlocked
      (finishRequest cfgBothBlocked initialSessionState modelClaudeOpus45 TaskType.architecture
        [] "hi" "r1" 0).selected = false := by
  have h := policy_substitute_unchecked cfgBothBlocked initialSessionState modelClaudeOpus45
    TaskType.architecture [] "hi" "r1" 0 (by decide)
  exact ⟨h.1, h.2.2.2.2 (by decide)⟩

/-- Counterexample to claim C9 as stated: with monthlyBudget 300 and
totalCreditsUsed 400, the stats command and the budget command both report
400/3 percent, not min(100, 400/3) = 100 — neither site clamps at 100. -/
theorem budgetPercent_counterexample :
    statsCommandPercent 300 400 ≠ min 100 ((400 : Rat) / 300 * 100) ∧
    budgetCommandPercent 300 400 ≠ min 100 ((400 : Rat) / 300 * 100) := by
  have hmin : min (100 : Rat) ((400 : Rat) / 300 * 100) = 100 := min_eq_left (by norm_num)
  rw [hmin]
  constructor
  · norm_num [statsCommandPercent]
  · norm_num [budgetCommandPercent]

/-- Claim C9 (amended): for a positive monthly budget the status bar shows
min(100, totalCreditsUsed / monthlyBudget * 100) while the stats and budget
commands show the unclamped totalCreditsUsed / monthlyBudget * 100; for a
zero budget the status bar and the stats command show 0 (the budget command
divides by zero).  In the scenario monthlyBudget = 300 with
totalCreditsUsed = 280 the utilization is 280/3 = 93.33 percent, at or above
the 90 percent hard-warning threshold. -/
theorem budgetPercent_sites (b t : Rat) :
    (b > 0 →
      statusBarPercent b t = min 100 (t / b * 100) ∧
      statsCommandPercent b t = t / b * 100 ∧
      budgetCommandPercent b t = t / b * 100) ∧
    (b = 0 → statusBarPercent b t = 0 ∧ statsCommandPercent b t = 0) ∧
    statusBarPercent 300 280 = 280 / 3 ∧ (90 : Rat) ≤ statusBarPercent 300 280 := by
  refine ⟨?_, ?_, ?_, ?_⟩
  · intro hb
    exact ⟨by simp [statusBarPercent, hb], by simp [statsCommandPercent, hb], rfl⟩
  · intro hb
    subst hb
    constructor <;> simp [statusBarPercent, statsCommandPercent]
  · rw [statusBarPercent, if_pos (by norm_num)]
    rw [min_eq_right (by norm_num)]
    norm_num
  · rw [statusBarPercent, if_pos (by norm_num)]
    rw [min_eq_right (by norm_num)]
    norm_num

/-- Witness for amended claim C9 at monthlyBudget 300, totalCreditsUsed 280. -/
theorem budgetPercent_sites_witness :
    statusBarPercent 300 280 = min 100 ((280 : Rat) / 300 * 100) ∧
    statsCommandPercent 300 280 = (280 : Rat) / 300 * 100 ∧
    budgetCommandPercent 300 280 = (280 : Rat) / 300 * 100 :=
  (budgetPercent_sites 300 280).1 (by norm_num)

end SimpLLM
